import Mathlib

/-!
Verification of the vimc pipeline handler (`src/libcamera/pipeline/vimc.cpp`)
against its natural-language specification.

The handler code in `vimc.cpp` is embedded directly.  The framework pieces it
calls (`PipelineHandler::queueRequest`, `PipelineHandler::stop`,
`PipelineHandler::completeBuffer`, `PipelineHandler::completeRequest`,
`V4L2Device`, `DeviceEnumerator`/`DeviceMatch`) are not part of the provided
sources; each of those is modelled from the specification and marked as such on
its doc comment.  Hardware collaborator behaviour (what `setFormat`,
`queueBuffer`, `streamOn`/`streamOff` return) is a parameter of the embedding.
-/

namespace Vimc

/-- Error number `ENOENT` (`queueRequest` returns `-ENOENT`). -/
def ENOENT : Int := 2

/-- Error number `EINVAL` (`configure` returns `-EINVAL`). -/
def EINVAL : Int := 22

/-- `v4l2_fourcc('R','G','B','3')`: the pixel format `V4L2_PIX_FMT_RGB24`
used by `generateConfiguration`. -/
def V4L2_PIX_FMT_RGB24 : Nat := 859981650

/-- Frame size in pixels (`struct Size` from `geometry.h`). -/
structure Size where
  width : Nat
  height : Nat
deriving DecidableEq, Repr

/-- The format programmed on / reported by the video device
(`V4L2DeviceFormat`: fourcc plus size). -/
structure V4L2DeviceFormat where
  fourcc : Nat
  size : Size
deriving DecidableEq, Repr

/-- `struct StreamConfiguration` from `stream.h`: pixel format, size and
buffer count of one stream. -/
structure StreamConfiguration where
  pixelFormat : Nat
  size : Size
  bufferCount : Nat
deriving DecidableEq, Repr

/-- `enum StreamRole` from `stream.h`. -/
inductive StreamRole where
  | StillCapture
  | VideoRecording
  | Viewfinder
deriving DecidableEq, Repr

/-- The default configuration that `PipelineHandlerVimc::generateConfiguration`
fills in: RGB24, 640x480, 4 buffers. -/
def defaultStreamConfiguration : StreamConfiguration :=
  { pixelFormat := V4L2_PIX_FMT_RGB24
    size := { width := 640, height := 480 }
    bufferCount := 4 }

/-- `PipelineHandlerVimc::generateConfiguration` (vimc.cpp lines 77-92): builds
a `CameraConfiguration` holding a single entry, keyed by the camera's one
stream `data->stream_`, with the default configuration.  The `roles` argument
is never read; the function touches no hardware and cannot fail.  The result is
the list of stream configurations in the returned `CameraConfiguration`. -/
def generateConfiguration (roles : List StreamRole) : List StreamConfiguration :=
  [defaultStreamConfiguration]

/-- `PipelineHandlerVimc::configure` (vimc.cpp lines 94-114).  `hw` is the
hardware collaborator's `V4L2Device::setFormat`: it receives the requested
format and returns a status code together with the format it actually accepted
(written back through the `V4L2DeviceFormat *` argument).  `configure` builds
the format from the stream configuration, calls `setFormat`, propagates its
error, and returns `-EINVAL` when the accepted size or fourcc differs from the
request; otherwise it returns 0. -/
def configure (hw : V4L2DeviceFormat → Int × V4L2DeviceFormat)
    (cfg : StreamConfiguration) : Int :=
  let fmt : V4L2DeviceFormat := { fourcc := cfg.pixelFormat, size := cfg.size }
  let ret := (hw fmt).1
  let actual := (hw fmt).2
  if ret ≠ 0 then ret
  else if actual.size ≠ cfg.size ∨ actual.fourcc ≠ cfg.pixelFormat then -EINVAL
  else 0

/-- Identity of a stream (`Stream *` in the C++ code; identity is
address-stable, so a numeric id stands in for the pointer). -/
abbrev StreamId := Nat

/-- Identity of a buffer (`Buffer *` in the C++ code). -/
abbrev BufferId := Nat

/-- A capture `Request`: per-stream assigned buffers plus the set of streams
whose buffer has been reported complete. -/
structure Request where
  id : Nat
  buffers : List (StreamId × BufferId)
  completedStreams : List StreamId
deriving DecidableEq, Repr

/-- `Request::findBuffer(stream)`: the buffer the request assigned to the
given stream, if any. -/
def Request.findBuffer (r : Request) (s : StreamId) : Option BufferId :=
  (r.buffers.find? (fun p => p.1 == s)).map Prod.snd

/-- Per-camera handler state: the camera's single stream (`data->stream_`),
the FIFO in-flight queue `queuedRequests_` (head = front), and the sequence of
requests reported `Completed` to the application, in report order. -/
structure CameraState where
  stream : StreamId
  queuedRequests : List Request
  completedRequests : List Request
deriving DecidableEq, Repr

/-- Modelled from the spec: `PipelineHandler::queueRequest` (base class, not in
the provided sources) appends the request to the camera's in-flight queue
(spec 4.2: "On success, appends the Request to the Camera's in-flight
queue"). -/
def baseQueueRequest (s : CameraState) (r : Request) : CameraState :=
  { s with queuedRequests := s.queuedRequests ++ [r] }

/-- `PipelineHandlerVimc::queueRequest` (vimc.cpp lines 148-166).  `hwQueue`
is the hardware collaborator's `V4L2Device::queueBuffer` status for a given
buffer.  The handler looks up the request's buffer for the camera's stream,
returns `-ENOENT` when there is none, propagates a negative `queueBuffer`
status, and otherwise appends the request to the in-flight queue and
returns 0. -/
def queueRequest (hwQueue : BufferId → Int) (s : CameraState) (r : Request) :
    Int × CameraState :=
  match r.findBuffer s.stream with
  | none => (-ENOENT, s)
  | some b =>
    let ret := hwQueue b
    if ret < 0 then (ret, s)
    else (0, baseQueueRequest s r)

/-- Modelled from the spec: `PipelineHandler::completeBuffer` (base class, not
in the provided sources) marks the buffer complete for its stream within the
request (spec 4.3: "The Buffer is marked complete for its Stream within that
Request").  The stream is the one the request assigned this buffer to. -/
def completeBuffer (r : Request) (b : BufferId) : Request :=
  match r.buffers.find? (fun p => p.2 == b) with
  | some sb => { r with completedStreams := r.completedStreams ++ [sb.1] }
  | none => r

/-- Modelled from the spec: `PipelineHandler::completeRequest` (base class, not
in the provided sources) pops the front request from the in-flight queue and
reports it `Completed` to the application (spec 4.3: "the Request is popped
from the queue and reported as Completed"). -/
def completeRequest (s : CameraState) (r : Request) : CameraState :=
  { s with queuedRequests := s.queuedRequests.tail
           completedRequests := s.completedRequests ++ [r] }

/-- `PipelineHandlerVimc::VimcCameraData::bufferReady` (vimc.cpp lines
204-210): takes `queuedRequests_.front()` unconditionally, marks the buffer
complete within it, then completes that request.  `front()` on an empty queue
is undefined behaviour in C++; the embedding returns `none` there. -/
def bufferReady (s : CameraState) (b : BufferId) : Option CameraState :=
  match s.queuedRequests with
  | [] => none
  | request :: rest =>
    let request := completeBuffer request b
    some (completeRequest { s with queuedRequests := request :: rest } request)

/-- Modelled from the spec: `PipelineHandler::stop` (base class, not in the
provided sources) flushes the in-flight queue: requests not yet completed are
discarded (spec 5: "stop() must flush the in-flight queue"; spec 7: cleanup
happens even after a transient DeviceError). -/
def baseStop (s : CameraState) : CameraState :=
  { s with queuedRequests := [] }

/-- `PipelineHandlerVimc::stop` (vimc.cpp lines 141-146): calls
`video_->streamOff()` — whose status `streamOffRet` is discarded — and then
`PipelineHandler::stop`, which flushes the queue. -/
def stop (streamOffRet : Int) (s : CameraState) : CameraState :=
  baseStop s

/-- `PipelineHandlerVimc::start` (vimc.cpp lines 135-139): returns the status
of `video_->streamOn()`; it does not touch the in-flight queue. -/
def start (streamOnRet : Int) (s : CameraState) : Int × CameraState :=
  (streamOnRet, s)

/-- One operation of a capture run on a started camera: the application queues
a request, or the hardware delivers a buffer-ready event. -/
inductive Op where
  | queue (r : Request)
  | event (b : BufferId)
deriving DecidableEq, Repr

/-- Run a sequence of operations from a state: `queue` goes through
`queueRequest` (keeping whatever state it leaves), `event` goes through
`bufferReady` and fails if the handler hits undefined behaviour. -/
def runOps (hwQueue : BufferId → Int) (s : CameraState) :
    List Op → Option CameraState
  | [] => some s
  | Op.queue r :: rest => runOps hwQueue (queueRequest hwQueue s r).2 rest
  | Op.event b :: rest =>
    match bufferReady s b with
    | none => none
    | some s' => runOps hwQueue s' rest

/-- The ids of the requests a trace submits, in submission order. -/
def submittedIds : List Op → List Nat
  | [] => []
  | Op.queue r :: rest => r.id :: submittedIds rest
  | Op.event _ :: rest => submittedIds rest

/-- A stream as seen by `allocateBuffers`: its identity and its negotiated
configuration (`Stream::configuration()` from stream.h). -/
structure Stream where
  sid : StreamId
  configuration : StreamConfiguration
deriving DecidableEq, Repr

/-- Buffer pools and the video device's export state: `pools` maps a stream id
to the number of buffers in its pool (`Stream::bufferPool()`), `exported` is
the stream whose pool the single capture video node currently backs. -/
structure DeviceBuffersState where
  pools : List (StreamId × Nat)
  exported : Option StreamId
deriving DecidableEq, Repr

/-- Size of a stream's buffer pool (0 when never populated). -/
def poolSize (pools : List (StreamId × Nat)) (sid : StreamId) : Nat :=
  ((pools.find? (fun p => p.1 == sid)).map Prod.snd).getD 0

/-- Modelled from the spec: `V4L2Device::exportBuffers` (not in the provided
sources) populates the given stream's buffer pool at the negotiated buffer
count (spec 4.2: "requests the hardware collaborator to export or allocate its
Buffer Pool at the negotiated buffer count"). -/
def exportBuffers (s : DeviceBuffersState) (st : Stream) : DeviceBuffersState :=
  { pools := (st.sid, st.configuration.bufferCount) ::
      s.pools.filter (fun p => p.1 != st.sid)
    exported := some st.sid }

/-- Modelled from the spec: `V4L2Device::releaseBuffers` (not in the provided
sources) releases all buffers of the pool the device exported; that pool
becomes empty (spec 4.2: "releases all Buffers of the given Streams' pools
back to the hardware collaborator; pool becomes empty"). -/
def releaseBuffers (s : DeviceBuffersState) : DeviceBuffersState :=
  match s.exported with
  | none => s
  | some sid =>
    { pools := (sid, 0) :: s.pools.filter (fun p => p.1 != sid)
      exported := none }

/-- `PipelineHandlerVimc::allocateBuffers` (vimc.cpp lines 116-126): reads
`*streams.begin()` — only the first stream of the set (`none` models the
undefined behaviour on an empty set) — and exports that stream's pool on the
video device.  `hwExportRet` is `exportBuffers`' status: a failure is
propagated.  The remaining streams of the set are never touched. -/
def allocateBuffers (hwExportRet : Int) (s : DeviceBuffersState)
    (streams : List Stream) : Option (Int × DeviceBuffersState) :=
  match streams with
  | [] => none
  | st :: _ =>
    if hwExportRet ≠ 0 then some (hwExportRet, s)
    else some (0, exportBuffers s st)

/-- `PipelineHandlerVimc::freeBuffers` (vimc.cpp lines 128-133): calls
`video_->releaseBuffers()`; the `streams` argument is not read. -/
def freeBuffers (s : DeviceBuffersState) (streams : List Stream) :
    Int × DeviceBuffersState :=
  (0, releaseBuffers s)

/-- A discovered entity graph, reduced to what matching reads: the names of
its entities. -/
abbrev EntityGraph := List String

/-- The required entity names `PipelineHandlerVimc::match` adds to its
`DeviceMatch` (vimc.cpp lines 170-180). -/
def vimcEntities : List String :=
  ["Raw Capture 0", "Raw Capture 1", "RGB/YUV Capture", "Sensor A", "Sensor B",
   "Debayer A", "Debayer B", "RGB/YUV Input", "Scaler"]

/-- Modelled from the spec: `DeviceMatch::match` (device enumerator, not in
the provided sources) checks that every required entity name is present among
the graph's entities; extra entities are permitted and ignored (spec 4.1). -/
def matchGraph (required : List String) (g : EntityGraph) : Bool :=
  required.all (fun n => g.contains n)

/-- Modelled from the spec: `DeviceEnumerator::search` behind
`acquireMediaDevice` (not in the provided sources) returns the first
discovered graph, in discovery order, that satisfies containment
(spec 4.1: "The first graph satisfying containment wins"). -/
def searchGraphs (graphs : List EntityGraph) (required : List String) :
    Option EntityGraph :=
  graphs.find? (matchGraph required)

/-- Outcome of `PipelineHandlerVimc::match`: its boolean return value and the
names of the cameras it registered. -/
structure MatchResult where
  matched : Bool
  registered : List String
deriving DecidableEq, Repr

/-- `PipelineHandlerVimc::match` (vimc.cpp lines 168-202): acquires a media
device whose graph contains all of `vimcEntities` (returning `false` when none
does), then opens the capture video node `Raw Capture 1` — `openOk` is the
hardware collaborator's open status — returning `false` on failure; on success
it registers the camera "VIMC Sensor B" and returns `true`. -/
def vimcMatch (graphs : List EntityGraph) (openOk : Bool) : MatchResult :=
  match searchGraphs graphs vimcEntities with
  | none => { matched := false, registered := [] }
  | some _ =>
    if openOk then { matched := true, registered := ["VIMC Sensor B"] }
    else { matched := false, registered := [] }

/-! ## Theorems -/

/-- C4: if the format or size the hardware collaborator reports back from
`setFormat` differs from the requested stream configuration's pixel format or
size, `configure` fails with `-EINVAL`; whenever `configure` succeeds, the
accepted (requested) format and size equal exactly what the hardware
reported. -/
theorem configure_accepts_only_hw_format
    (hw : V4L2DeviceFormat → Int × V4L2DeviceFormat) (cfg : StreamConfiguration) :
    ((hw ⟨cfg.pixelFormat, cfg.size⟩).1 = 0 →
      ((hw ⟨cfg.pixelFormat, cfg.size⟩).2.size ≠ cfg.size ∨
        (hw ⟨cfg.pixelFormat, cfg.size⟩).2.fourcc ≠ cfg.pixelFormat) →
      configure hw cfg = -EINVAL) ∧
    (configure hw cfg = 0 →
      (hw ⟨cfg.pixelFormat, cfg.size⟩).2.size = cfg.size ∧
      (hw ⟨cfg.pixelFormat, cfg.size⟩).2.fourcc = cfg.pixelFormat) := by
  unfold configure
  constructor
  · intro h0 hdiff
    simp [h0, hdiff]
  · intro hsucc
    by_cases h0 : (hw ⟨cfg.pixelFormat, cfg.size⟩).1 = 0
    · simp only [h0, ne_eq, not_true_eq_false, if_false, ite_not] at hsucc
      by_cases hdiff : (hw ⟨cfg.pixelFormat, cfg.size⟩).2.size = cfg.size ∧
          (hw ⟨cfg.pixelFormat, cfg.size⟩).2.fourcc = cfg.pixelFormat
      · exact hdiff
      · rw [not_and_or] at hdiff
        simp [hdiff, EINVAL] at hsucc
    · simp [h0] at hsucc

/-- Witness for C4 at a concrete input: the hardware accepts a different size
(320x240 instead of the requested 640x480), so `configure` returns
`-EINVAL`. -/
theorem configure_accepts_only_hw_format_witness :
    configure (fun f => (0, ⟨f.fourcc, ⟨320, 240⟩⟩)) defaultStreamConfiguration =
      -EINVAL :=
  (configure_accepts_only_hw_format (fun f => (0, ⟨f.fourcc, ⟨320, 240⟩⟩))
    defaultStreamConfiguration).1 rfl (by decide)

/-- C9 counterexample: `generateConfiguration` does not produce one
configuration per requested role — for two requested roles it still produces a
single configuration. -/
theorem generateConfiguration_not_per_role :
    (generateConfiguration [StreamRole.StillCapture, StreamRole.Viewfinder]).length ≠
      [StreamRole.StillCapture, StreamRole.Viewfinder].length := by
  decide

/-- C9 amended: `generateConfiguration` never fails, performs no hardware
interaction (it is a pure function not consulting any collaborator), and
produces exactly one default stream configuration — for the camera's single
stream — regardless of the requested roles, which it ignores. -/
theorem generateConfiguration_single_default (roles : List StreamRole) :
    generateConfiguration roles = [defaultStreamConfiguration] :=
  rfl

/-- C6: `stop` flushes the in-flight queue regardless of the `streamOff`
status (which the code discards), and a subsequent `start` — which does not
touch the queue — begins with no stale requests from before the stop. -/
theorem stop_flushes_queue (streamOffRet streamOnRet : Int) (s : CameraState) :
    (stop streamOffRet s).queuedRequests = [] ∧
    (start streamOnRet (stop streamOffRet s)).2.queuedRequests = [] :=
  ⟨rfl, rfl⟩

/-- C5 counterexample: with an empty in-flight queue the handler does not log
and drop the event leaving the state unchanged — `bufferReady` dereferences
the front of the empty queue, which is undefined behaviour (`none` in the
embedding), not a no-op. -/
theorem bufferReady_empty_not_dropped :
    bufferReady ⟨7, [], []⟩ 100 ≠ some ⟨7, [], []⟩ := by
  decide

/-- Helper: `bufferReady` fails (undefined behaviour on `front()`) when the
in-flight queue is empty. -/
theorem bufferReady_nil (s : CameraState) (b : BufferId)
    (h : s.queuedRequests = []) : bufferReady s b = none := by
  obtain ⟨st, q, c⟩ := s
  cases q with
  | nil => rfl
  | cons r rest => simp at h

/-- C5 amended: when a buffer-ready event is delivered while the in-flight
queue is empty, the handler has no guard for this case: it unconditionally
accesses the front of the empty queue, undefined behaviour modelled as
failure; no request is completed, but the event is not safely logged and
dropped. -/
theorem bufferReady_empty_undefined (s : CameraState) (b : BufferId)
    (h : s.queuedRequests = []) : bufferReady s b = none :=
  bufferReady_nil s b h

/-- Witness for the amended C5 at a concrete input. -/
theorem bufferReady_empty_undefined_witness :
    bufferReady ⟨7, [], []⟩ 100 = none :=
  bufferReady_empty_undefined ⟨7, [], []⟩ 100 rfl

/-- C3: `queueRequest` appends the request to the in-flight queue and returns
success exactly when both the buffer lookup for the camera's stream and the
hardware submission succeed; an unknown stream yields `-ENOENT`, a hardware
failure is returned as-is, and in both failure cases the state is
unchanged. -/
theorem queueRequest_contract (hwQueue : BufferId → Int) (s : CameraState)
    (r : Request) :
    (r.findBuffer s.stream = none → queueRequest hwQueue s r = (-ENOENT, s)) ∧
    (∀ b, r.findBuffer s.stream = some b → hwQueue b < 0 →
      queueRequest hwQueue s r = (hwQueue b, s)) ∧
    (∀ b, r.findBuffer s.stream = some b → 0 ≤ hwQueue b →
      queueRequest hwQueue s r =
        (0, { s with queuedRequests := s.queuedRequests ++ [r] })) ∧
    ((queueRequest hwQueue s r).1 = 0 ↔
      ∃ b, r.findBuffer s.stream = some b ∧ 0 ≤ hwQueue b) := by
  refine ⟨?_, ?_, ?_, ?_⟩
  · intro h
    simp [queueRequest, h]
  · intro b hb hlt
    simp [queueRequest, hb, hlt]
  · intro b hb hge
    simp [queueRequest, hb, baseQueueRequest, not_lt.mpr hge]
  · cases hb : r.findBuffer s.stream with
    | none =>
      simp [queueRequest, hb, ENOENT]
    | some b =>
      by_cases hlt : hwQueue b < 0
      · simp only [queueRequest, hb]
        rw [if_pos hlt]
        constructor
        · intro h
          exact absurd h (by omega)
        · rintro ⟨b', hb', hge⟩
          injection hb' with h
          subst h
          omega
      · simp only [queueRequest, hb]
        rw [if_neg hlt]
        exact ⟨fun _ => ⟨b, rfl, not_lt.mp hlt⟩, fun _ => rfl⟩

/-- Witness for C3 at concrete inputs: a request for a foreign stream (id 9)
on a camera whose stream is 7 yields `-ENOENT` with the queue untouched; a
hardware failure (-19) is propagated with the queue untouched; a valid request
is appended and 0 returned. -/
theorem queueRequest_contract_witness :
    queueRequest (fun _ => 0) ⟨7, [], []⟩ ⟨1, [(9, 100)], []⟩ =
      (-ENOENT, ⟨7, [], []⟩) ∧
    queueRequest (fun _ => -19) ⟨7, [], []⟩ ⟨1, [(7, 100)], []⟩ =
      (-19, ⟨7, [], []⟩) ∧
    queueRequest (fun _ => 0) ⟨7, [], []⟩ ⟨1, [(7, 100)], []⟩ =
      (0, ⟨7, [⟨1, [(7, 100)], []⟩], []⟩) :=
  ⟨(queueRequest_contract (fun _ => 0) ⟨7, [], []⟩ ⟨1, [(9, 100)], []⟩).1 rfl,
   (queueRequest_contract (fun _ => -19) ⟨7, [], []⟩ ⟨1, [(7, 100)], []⟩).2.1
     100 rfl (by decide),
   (queueRequest_contract (fun _ => 0) ⟨7, [], []⟩ ⟨1, [(7, 100)], []⟩).2.2.1
     100 rfl (by decide)⟩

/-- Helper: `bufferReady` on a state whose queue has a front request pops that
request and appends its buffer-completed version to the completed list. -/
theorem bufferReady_some (s : CameraState) (b : BufferId) (r : Request)
    (rest : List Request) (hq : s.queuedRequests = r :: rest) :
    bufferReady s b =
      some ⟨s.stream, rest, s.completedRequests ++ [completeBuffer r b]⟩ := by
  obtain ⟨st, q, c⟩ := s
  simp only at hq
  subst hq
  rfl

/-- C1: a buffer-ready event delivered while at least one request is
in-flight is correlated against the front request of the queue: the buffer is
marked complete for the stream it was assigned to within that request, and —
the camera having a single stream — the front request is popped and reported
Completed as soon as the event is processed. -/
theorem bufferReady_correlates_front (s : CameraState) (b : BufferId)
    (st : StreamId) (r : Request) (rest : List Request)
    (hq : s.queuedRequests = r :: rest)
    (hb : r.buffers.find? (fun p => p.2 == b) = some (st, b)) :
    bufferReady s b = some
      { s with
          queuedRequests := rest
          completedRequests := s.completedRequests ++
            [{ r with completedStreams := r.completedStreams ++ [st] }] } := by
  rw [bufferReady_some s b r rest hq]
  simp only [completeBuffer, hb]

/-- Witness for C1 at a concrete input: two in-flight requests; the event for
buffer 100 completes the front request (id 1) on its stream 7 and leaves
request 2 queued. -/
theorem bufferReady_correlates_front_witness :
    bufferReady ⟨7, [⟨1, [(7, 100)], []⟩, ⟨2, [(7, 101)], []⟩], []⟩ 100 =
      some ⟨7, [⟨2, [(7, 101)], []⟩], [⟨1, [(7, 100)], [7]⟩]⟩ :=
  bufferReady_correlates_front
    ⟨7, [⟨1, [(7, 100)], []⟩, ⟨2, [(7, 101)], []⟩], []⟩ 100 7
    ⟨1, [(7, 100)], []⟩ [⟨2, [(7, 101)], []⟩] rfl rfl

/-- Helper: filtering out the entries of one stream id does not change the
lookup of a different stream id. -/
theorem find?_filter_ne_key (pools : List (StreamId × Nat)) (a sid : StreamId)
    (h : sid ≠ a) :
    (pools.filter (fun p => p.1 != a)).find? (fun p => p.1 == sid) =
      pools.find? (fun p => p.1 == sid) := by
  induction pools with
  | nil => rfl
  | cons p ps ih =>
    by_cases hpa : p.1 = a
    · have h1 : ¬((p.1 != a) = true) := by simp [hpa]
      have h2 : ¬((p.1 == sid) = true) := by
        simp only [beq_iff_eq, hpa]
        exact fun he => h he.symm
      rw [List.filter_cons_of_neg (p := fun q => q.1 != a) (a := p) h1,
        List.find?_cons_of_neg (p := fun q => q.1 == sid) (a := p) ps h2]
      exact ih
    · have h1 : (p.1 != a) = true := by simp [hpa]
      rw [List.filter_cons_of_pos (p := fun q => q.1 != a) (a := p) h1]
      by_cases hpsid : p.1 = sid
      · have h2 : (p.1 == sid) = true := by simp [hpsid]
        rw [List.find?_cons_of_pos (p := fun q => q.1 == sid) (a := p)
            (ps.filter (fun q => q.1 != a)) h2,
          List.find?_cons_of_pos (p := fun q => q.1 == sid) (a := p) ps h2]
      · have h2 : ¬((p.1 == sid) = true) := by simp [hpsid]
        rw [List.find?_cons_of_neg (p := fun q => q.1 == sid) (a := p)
            (ps.filter (fun q => q.1 != a)) h2,
          List.find?_cons_of_neg (p := fun q => q.1 == sid) (a := p) ps h2]
        exact ih

/-- C7 counterexample: a successful `allocateBuffers` call on a two-stream set
populates only the first stream's pool; the second stream's pool stays at 0
rather than its negotiated buffer count 4. -/
theorem allocateBuffers_skips_later_streams :
    allocateBuffers 0 ⟨[], none⟩
        [⟨1, defaultStreamConfiguration⟩, ⟨2, defaultStreamConfiguration⟩] =
      some (0, ⟨[(1, 4)], some 1⟩) ∧
    poolSize [(1, 4)] 2 ≠ defaultStreamConfiguration.bufferCount := by
  decide

/-- C7 amended: a successful `allocateBuffers` populates the pool of the
*first* stream of the passed set to exactly its negotiated buffer count,
leaving every other pool unchanged (for this single-stream camera the set
holds only the camera's one stream); after `freeBuffers`, the pool the device
exported is empty and every other pool is still unchanged. -/
theorem allocateBuffers_first_pool (s : DeviceBuffersState) (st : Stream)
    (rest streams2 : List Stream) :
    ∃ s', allocateBuffers 0 s (st :: rest) = some (0, s') ∧
      poolSize s'.pools st.sid = st.configuration.bufferCount ∧
      (∀ sid, sid ≠ st.sid → poolSize s'.pools sid = poolSize s.pools sid) ∧
      poolSize (freeBuffers s' streams2).2.pools st.sid = 0 ∧
      (∀ sid, sid ≠ st.sid →
        poolSize (freeBuffers s' streams2).2.pools sid = poolSize s.pools sid) := by
  refine ⟨exportBuffers s st, rfl, ?_, ?_, ?_, ?_⟩
  · simp only [poolSize, exportBuffers]
    rw [List.find?_cons_of_pos _ (by simp)]
    rfl
  · intro sid hsid
    have hne : ¬((st.sid == sid) = true) := by
      simp only [beq_iff_eq]
      exact fun he => hsid he.symm
    simp only [poolSize, exportBuffers]
    rw [List.find?_cons_of_neg (p := fun q => q.1 == sid)
        (a := (st.sid, st.configuration.bufferCount))
        (s.pools.filter (fun q => q.1 != st.sid)) hne,
      find?_filter_ne_key s.pools st.sid sid hsid]
  · simp only [poolSize, freeBuffers, releaseBuffers, exportBuffers]
    rw [List.find?_cons_of_pos _ (by simp)]
    rfl
  · intro sid hsid
    have hne : ¬((st.sid == sid) = true) := by
      simp only [beq_iff_eq]
      exact fun he => hsid he.symm
    simp only [poolSize, freeBuffers, releaseBuffers, exportBuffers]
    rw [List.filter_cons_of_neg (p := fun q => q.1 != st.sid)
        (a := (st.sid, st.configuration.bufferCount)) (by simp)]
    rw [List.find?_cons_of_neg (p := fun q => q.1 == sid) (a := (st.sid, 0))
        ((s.pools.filter (fun q => q.1 != st.sid)).filter (fun q => q.1 != st.sid))
        hne,
      find?_filter_ne_key (s.pools.filter (fun q => q.1 != st.sid)) st.sid sid hsid,
      find?_filter_ne_key s.pools st.sid sid hsid]

/-- Witness for the amended C7 at a concrete input: allocating on the
singleton set of stream 1 (count 4) gives it a pool of 4 and leaves stream 2's
pool untouched; freeing empties stream 1's pool. -/
theorem allocateBuffers_first_pool_witness :
    ∃ s', allocateBuffers 0 ⟨[], none⟩ [⟨1, defaultStreamConfiguration⟩] =
        some (0, s') ∧
      poolSize s'.pools 1 = 4 ∧
      poolSize s'.pools 2 = 0 ∧
      poolSize (freeBuffers s' [⟨1, defaultStreamConfiguration⟩]).2.pools 1 = 0 := by
  obtain ⟨s', h1, h2, h3, h4, h5⟩ :=
    allocateBuffers_first_pool ⟨[], none⟩ ⟨1, defaultStreamConfiguration⟩ []
      [⟨1, defaultStreamConfiguration⟩]
  exact ⟨s', h1, h2, h3 2 (by decide), h4⟩

/-- Helper: a successful `find?` returns an element of the list satisfying the
predicate, preceded only by elements failing it. -/
theorem find?_split {α : Type} (p : α → Bool) :
    ∀ (l : List α) (a : α), l.find? p = some a →
      p a = true ∧ ∃ l1 l2, l = l1 ++ a :: l2 ∧ ∀ x ∈ l1, p x = false := by
  intro l
  induction l with
  | nil =>
    intro a h
    simp at h
  | cons x xs ih =>
    intro a h
    cases hx : p x with
    | true =>
      rw [List.find?_cons_of_pos _ hx] at h
      injection h with h
      subst h
      exact ⟨hx, [], xs, rfl, by simp⟩
    | false =>
      rw [List.find?_cons_of_neg _ (by simp [hx])] at h
      obtain ⟨hpa, l1, l2, heq, hfail⟩ := ih a h
      refine ⟨hpa, x :: l1, l2, by rw [heq, List.cons_append], ?_⟩
      intro y hy
      rcases List.mem_cons.mp hy with rfl | hy'
      · exact hx
      · exact hfail y hy'

/-- Helper: `matchGraph` is containment of the required names in the graph's
entity names. -/
theorem matchGraph_iff (required : List String) (g : EntityGraph) :
    matchGraph required g = true ↔ ∀ n ∈ required, n ∈ g := by
  simp [matchGraph, List.all_eq_true]

/-- C8: the matcher binds a device iff some discovered graph contains every
required vimc entity name (extra entities permitted and ignored); the graph
bound is the first qualifying one in discovery order; and when no graph
qualifies, `match` returns false with no camera registered — a non-error
negative result. -/
theorem match_binds_first_superset (graphs : List EntityGraph) (openOk : Bool) :
    ((searchGraphs graphs vimcEntities).isSome ↔
      ∃ g ∈ graphs, ∀ n ∈ vimcEntities, n ∈ g) ∧
    (∀ g, searchGraphs graphs vimcEntities = some g →
      (∀ n ∈ vimcEntities, n ∈ g) ∧
      ∃ l1 l2, graphs = l1 ++ g :: l2 ∧
        ∀ g' ∈ l1, ¬(∀ n ∈ vimcEntities, n ∈ g')) ∧
    (searchGraphs graphs vimcEntities = none →
      vimcMatch graphs openOk = ⟨false, []⟩) := by
  refine ⟨?_, ?_, ?_⟩
  · rw [searchGraphs, List.find?_isSome]
    constructor
    · rintro ⟨g, hg, hm⟩
      exact ⟨g, hg, (matchGraph_iff _ _).mp hm⟩
    · rintro ⟨g, hg, hm⟩
      exact ⟨g, hg, (matchGraph_iff _ _).mpr hm⟩
  · intro g hg
    obtain ⟨hm, l1, l2, heq, hfail⟩ :=
      find?_split (matchGraph vimcEntities) graphs g hg
    refine ⟨(matchGraph_iff _ _).mp hm, l1, l2, heq, ?_⟩
    intro g' hg' hcontain
    have hq := (matchGraph_iff vimcEntities g').mpr hcontain
    rw [hfail g' hg'] at hq
    exact Bool.false_ne_true hq
  · intro hnone
    unfold vimcMatch
    rw [hnone]

/-- Witness for C8 at a concrete input: with a single non-qualifying graph the
matcher binds nothing and `match` returns false with no camera registered. -/
theorem match_binds_first_superset_witness :
    vimcMatch [["foo"]] true = ⟨false, []⟩ :=
  (match_binds_first_superset [["foo"]] true).2.2 (by decide)

/-- C10: if the capture video node fails to open after the vimc topology has
been matched and the media device acquired, `match` returns false — the same
observable result as when no qualifying graph exists at all — and no camera
is registered. -/
theorem match_video_open_failure (graphs : List EntityGraph)
    (h : (searchGraphs graphs vimcEntities).isSome) :
    vimcMatch graphs false = ⟨false, []⟩ ∧
    vimcMatch graphs false = vimcMatch [] true := by
  obtain ⟨g, hg⟩ := Option.isSome_iff_exists.mp h
  constructor
  · unfold vimcMatch
    rw [hg]
    rfl
  · unfold vimcMatch
    rw [hg]
    rfl

/-- Witness for C10 at a concrete input: a qualifying graph is discovered, the
video node open fails, match returns false and registers nothing. -/
theorem match_video_open_failure_witness :
    vimcMatch [vimcEntities] false = ⟨false, []⟩ :=
  (match_video_open_failure [vimcEntities] (by decide)).1

/-- Helper: marking a buffer complete does not change a request's id. -/
theorem completeBuffer_id (r : Request) (b : BufferId) :
    (completeBuffer r b).id = r.id := by
  unfold completeBuffer
  cases r.buffers.find? (fun p => p.2 == b) <;> rfl

/-- Helper: a `queueRequest` whose buffer lookup and hardware submission
succeed appends the request to the in-flight queue. -/
theorem queueRequest_ok_state (hwQueue : BufferId → Int) (s : CameraState)
    (r : Request) (hb : (r.findBuffer s.stream).isSome)
    (hhw : ∀ b, 0 ≤ hwQueue b) :
    (queueRequest hwQueue s r).2 =
      { s with queuedRequests := s.queuedRequests ++ [r] } := by
  obtain ⟨b, hb⟩ := Option.isSome_iff_exists.mp hb
  simp [queueRequest, hb, baseQueueRequest, not_lt.mpr (hhw b)]

/-- Helper invariant: along any successfully-run operation trace whose queued
requests all resolve a buffer and whose hardware submissions succeed, the
completed-then-queued request ids equal the starting completed-then-queued ids
followed by the trace's submissions, in order. -/
theorem runOps_id_order (hwQueue : BufferId → Int)
    (hhw : ∀ b, 0 ≤ hwQueue b) :
    ∀ (ops : List Op) (s s' : CameraState),
      (∀ r, Op.queue r ∈ ops → (r.findBuffer s.stream).isSome) →
      runOps hwQueue s ops = some s' →
      s'.stream = s.stream ∧
      s'.completedRequests.map Request.id ++ s'.queuedRequests.map Request.id =
        s.completedRequests.map Request.id ++
          s.queuedRequests.map Request.id ++ submittedIds ops := by
  intro ops
  induction ops with
  | nil =>
    intro s s' _ hrun
    injection hrun with hrun
    subst hrun
    simp [submittedIds]
  | cons op rest ih =>
    intro s s' hbuf hrun
    cases op with
    | queue r =>
      simp only [runOps] at hrun
      rw [queueRequest_ok_state hwQueue s r (hbuf r (by simp)) hhw] at hrun
      obtain ⟨hstream, heq⟩ :=
        ih { s with queuedRequests := s.queuedRequests ++ [r] } s'
          (fun r' hr' => hbuf r' (List.mem_cons_of_mem _ hr')) hrun
      refine ⟨hstream, ?_⟩
      rw [heq]
      simp [submittedIds, List.append_assoc]
    | event b =>
      simp only [runOps] at hrun
      cases hq : s.queuedRequests with
      | nil =>
        rw [bufferReady_nil s b hq] at hrun
        simp at hrun
      | cons r q =>
        rw [bufferReady_some s b r q hq] at hrun
        obtain ⟨hstream, heq⟩ :=
          ih ⟨s.stream, q, s.completedRequests ++ [completeBuffer r b]⟩ s'
            (fun r' hr' => hbuf r' (List.mem_cons_of_mem _ hr')) hrun
        refine ⟨hstream, ?_⟩
        rw [heq]
        simp [submittedIds, completeBuffer_id, List.append_assoc]

/-- C2: for every successfully-run trace of request submissions and
buffer-ready events on a single-stream camera — every submission resolving a
buffer and accepted by the hardware — if every queued request has completed by
the end of the trace, the requests were reported Completed in exactly
submission order, and (the submitted ids being distinct) each request
transitioned to Completed exactly once. -/
theorem requests_complete_in_submission_order (hwQueue : BufferId → Int)
    (st : StreamId) (ops : List Op) (s' : CameraState)
    (hhw : ∀ b, 0 ≤ hwQueue b)
    (hbuf : ∀ r, Op.queue r ∈ ops → (r.findBuffer st).isSome)
    (hrun : runOps hwQueue ⟨st, [], []⟩ ops = some s')
    (hdrained : s'.queuedRequests = []) :
    s'.completedRequests.map Request.id = submittedIds ops ∧
    ((submittedIds ops).Nodup → (s'.completedRequests.map Request.id).Nodup) := by
  obtain ⟨hstream, heq⟩ :=
    runOps_id_order hwQueue hhw ops ⟨st, [], []⟩ s' hbuf hrun
  rw [hdrained] at heq
  simp only [List.map_nil, List.append_nil, List.nil_append] at heq
  exact ⟨heq, fun h => heq ▸ h⟩

/-- Witness for C2 at a concrete input: requests 1 and 2 are queued in order
and their buffers complete in order; the completed ids are exactly [1, 2]. -/
theorem requests_complete_in_submission_order_witness :
    (⟨7, [], [⟨1, [(7, 100)], [7]⟩, ⟨2, [(7, 101)], [7]⟩]⟩ :
        CameraState).completedRequests.map Request.id = [1, 2] := by
  have hbuf : ∀ r, Op.queue r ∈ [Op.queue (⟨1, [(7, 100)], []⟩ : Request),
      Op.queue ⟨2, [(7, 101)], []⟩, Op.event 100, Op.event 101] →
      (r.findBuffer 7).isSome := by
    intro r hr
    simp only [List.mem_cons, List.not_mem_nil, or_false, reduceCtorEq,
      Op.queue.injEq] at hr
    rcases hr with rfl | rfl <;> decide
  have h := requests_complete_in_submission_order (fun _ => 0) 7
    [Op.queue ⟨1, [(7, 100)], []⟩, Op.queue ⟨2, [(7, 101)], []⟩,
      Op.event 100, Op.event 101]
    ⟨7, [], [⟨1, [(7, 100)], [7]⟩, ⟨2, [(7, 101)], [7]⟩]⟩
    (fun b => le_refl 0) hbuf (by decide) rfl
  exact h.1

end Vimc
